import Mathlib

/-!
Verification of the EOH (Evolution of Hamiltonian) algorithm from
`qiskit/aqua/algorithms/many_sample/eoh/eoh.py`.

The module is a thin orchestrator over opaque collaborators: an observable
operator, an evolution operator, an initial-state preparer and an execution
backend.  We embed the collaborators as records of (possibly failing)
capability functions, circuits as opaque gate lists, and Python exceptions
as `Except` errors carrying the message string.  Each collaborator
invocation is also recorded in an event trace so that call order, call
counts and the flags passed at each call site are part of the model.
-/

namespace EOHSpec

/-- Python exceptions propagated by value: the error message. -/
abbrev Err := String

/-- `QuantumRegister(size, name)`. -/
structure QuantumRegister where
  size : Nat
  name : String
deriving DecidableEq, Repr

/-- Circuits are opaque gate sequences; `qc += fragment` appends. -/
abbrev QuantumCircuit := List Nat

/-- Raw backend execution result, opaque to this component. -/
abbrev ExecResult := List Int

/-- The canonical internal operator representation
(`WeightedPauliOperator`), carrying the collaborator capabilities EOH
invokes on it.  Each capability is an opaque function that may raise. -/
structure WeightedPauliOperator where
  num_qubits : Nat
  evolve : Int → Int → QuantumRegister → String → Int → Except Err QuantumCircuit
  construct_evaluation_circuit : QuantumCircuit → Bool → Except Err QuantumCircuit
  evaluate_with_result : ExecResult → Bool → Except Err (Int × Int)

/-- An operator as supplied by the caller: either already in canonical
form, or some other representation with its own conversion behaviour. -/
inductive BaseOperator where
  | canonical (op : WeightedPauliOperator)
  | noncanonical (convert : Unit → Except Err WeightedPauliOperator)

/-- Modelled from the spec: `op_converter.to_weighted_pauli_operator` is
not under src/.  The spec states that operators are normalized into a
single canonical internal representation and that converting an
already-canonical operator is a no-op that must not raise; conversion of a
non-canonical representation is the representation's own (possibly
failing) conversion. -/
def op_converter_to_weighted_pauli_operator :
    BaseOperator → Except Err WeightedPauliOperator
  | .canonical op => .ok op
  | .noncanonical f => f ()

/-- The initial-state preparer collaborator. -/
structure InitialState where
  construct_circuit : String → QuantumRegister → Except Err QuantumCircuit

/-- The execution backend (`QuantumInstance`): a declared
statevector/sampling mode flag and a blocking `execute` capability. -/
structure QuantumInstance where
  is_statevector : Bool
  execute : QuantumCircuit → Except Err ExecResult

/-- One collaborator invocation, recorded in the order performed. -/
inductive Event where
  | prepCall (mode : String) (reg : QuantumRegister)
  | evolveCall (evo_time : Int) (num_time_slices : Int) (reg : QuantumRegister)
      (expansion_mode : String) (expansion_order : Int)
  | evalCircuitCall (wave_function : QuantumCircuit) (statevector_mode : Bool)
  | executeCall (qc : QuantumCircuit)
  | evaluateCall (result : ExecResult) (statevector_mode : Bool)
deriving DecidableEq, Repr

/-- Recognizes the backend execution event. -/
def Event.isExecuteCall : Event → Bool
  | .executeCall _ => true
  | _ => false

/-- Instance state of a successfully constructed `EOH` object. -/
structure EOH where
  _operator : WeightedPauliOperator
  _initial_state : InitialState
  _evo_operator : WeightedPauliOperator
  _evo_time : Int
  _num_time_slices : Int
  _expansion_mode : String
  _expansion_order : Int
  _ret : List (String × Int)

/-- `EOH._validate_eoh`: the four construction-time checks, in source
order, each raising `AquaError` with the source's message. -/
def EOH._validate_eoh (evo_time : Int) (num_time_slices : Int)
    (expansion_mode : String) (expansion_order : Int) : Except Err Unit :=
  if evo_time < 0 then
    .error ("Evo time value " ++ toString evo_time ++ ". Minimum value allowed is 0")
  else if num_time_slices < 0 then
    .error ("Num time slices value " ++ toString num_time_slices ++
      ". Minimum value allowed is 0")
  else if expansion_mode ∉ (["trotter", "suzuki"] : List String) then
    .error ("Expansion Mode value \x27" ++ expansion_mode ++
      "\x27. Values allowed are \x27trotter\x27, \x27suzuki\x27")
  else if expansion_order < 1 then
    .error ("Expansion order value " ++ toString expansion_order ++
      ". Minimum value allowed is 1")
  else
    .ok ()

/-- `EOH.__init__`: validate first (before any field is set), then convert
the observable operator, store the preparer, convert the evolution
operator, store the scalars and an empty result dict.  A raise at any step
means no instance is produced.  (`super().__init__()` only initializes
base-class bookkeeping and is elided; the execution backend is not a
constructor argument at all — the base class binds it at run time.) -/
def EOH.init (operator : BaseOperator) (initial_state : InitialState)
    (evo_operator : BaseOperator) (evo_time : Int) (num_time_slices : Int)
    (expansion_mode : String) (expansion_order : Int) : Except Err EOH :=
  match EOH._validate_eoh evo_time num_time_slices expansion_mode expansion_order with
  | .error err => .error err
  | .ok _ =>
    match op_converter_to_weighted_pauli_operator operator with
    | .error err => .error err
    | .ok op =>
      match op_converter_to_weighted_pauli_operator evo_operator with
      | .error err => .error err
      | .ok evo_op =>
        .ok { _operator := op
              _initial_state := initial_state
              _evo_operator := evo_op
              _evo_time := evo_time
              _num_time_slices := num_time_slices
              _expansion_mode := expansion_mode
              _expansion_order := expansion_order
              _ret := [] }

/-- Python dict assignment `d[k] = v` on a string-keyed dict: update the
key in place if present, else append, preserving insertion order. -/
def dictSet : List (String × Int) → String → Int → List (String × Int)
  | [], k, v => [(k, v)]
  | (k0, v0) :: rest, k, v =>
    if k0 = k then (k, v) :: rest else (k0, v0) :: dictSet rest k v

/-- `EOH.construct_circuit`: allocate a register named "q" sized to the
observable operator's qubit count, get the preparer's fragment over it,
append the evolution operator's time-evolution fragment over the same
register, return the concatenation.  The second component is the trace of
collaborator calls made. -/
def EOH.construct_circuit (e : EOH) : Except Err QuantumCircuit × List Event :=
  let quantum_registers : QuantumRegister := ⟨e._operator.num_qubits, "q"⟩
  match e._initial_state.construct_circuit "circuit" quantum_registers with
  | .error err => (.error err, [.prepCall "circuit" quantum_registers])
  | .ok qc =>
    match e._evo_operator.evolve e._evo_time e._num_time_slices quantum_registers
        e._expansion_mode e._expansion_order with
    | .error err =>
      (.error err,
       [.prepCall "circuit" quantum_registers,
        .evolveCall e._evo_time e._num_time_slices quantum_registers
          e._expansion_mode e._expansion_order])
    | .ok evo_frag =>
      (.ok (qc ++ evo_frag),
       [.prepCall "circuit" quantum_registers,
        .evolveCall e._evo_time e._num_time_slices quantum_registers
          e._expansion_mode e._expansion_order])

/-- `EOH._run`: build the circuit, wrap it with the observable operator's
evaluation-circuit construction (flag = backend's statevector mode),
execute once on the backend, reduce the raw result with the observable
operator's evaluation routine (same flag), store avg and std_dev into the
result dict and return it.  The backend is bound by the base class's `run`
wrapper, so it is an explicit argument here.  Returns the updated instance
together with the returned dict, and the call trace. -/
def EOH._run (e : EOH) (quantum_instance : QuantumInstance) :
    Except Err (EOH × List (String × Int)) × List Event :=
  let (cc, trace0) := e.construct_circuit
  match cc with
  | .error err => (.error err, trace0)
  | .ok qc =>
    match e._operator.construct_evaluation_circuit qc quantum_instance.is_statevector with
    | .error err =>
      (.error err, trace0 ++ [.evalCircuitCall qc quantum_instance.is_statevector])
    | .ok qc_with_op =>
      let trace1 := trace0 ++ [.evalCircuitCall qc quantum_instance.is_statevector]
      match quantum_instance.execute qc_with_op with
      | .error err => (.error err, trace1 ++ [.executeCall qc_with_op])
      | .ok result =>
        let trace2 := trace1 ++ [.executeCall qc_with_op]
        match e._operator.evaluate_with_result result quantum_instance.is_statevector with
        | .error err =>
          (.error err,
           trace2 ++ [.evaluateCall result quantum_instance.is_statevector])
        | .ok (avg, std_dev) =>
          let ret := dictSet (dictSet e._ret "avg" avg) "std_dev" std_dev
          (.ok ({ e with _ret := ret }, ret),
           trace2 ++ [.evaluateCall result quantum_instance.is_statevector])

/-! Concrete demonstration collaborators, used to evaluate the model on
closed inputs. -/

/-- A concrete 1-qubit canonical operator with simple capabilities. -/
def demoOperator : WeightedPauliOperator where
  num_qubits := 1
  evolve := fun _ _ _ _ _ => .ok [5]
  construct_evaluation_circuit := fun qc _ => .ok (qc ++ [9])
  evaluate_with_result := fun _ _ => .ok (3, 2)

/-- A concrete preparer emitting the fragment `[1, 2]`. -/
def demoPrep : InitialState where
  construct_circuit := fun _ _ => .ok [1, 2]

/-- A preparer that always raises. -/
def badPrep : InitialState where
  construct_circuit := fun _ _ => .error "boom"

/-- A statevector-mode backend returning a fixed raw result. -/
def demoQI : QuantumInstance where
  is_statevector := true
  execute := fun _ => .ok [7]

/-- A concrete successfully-constructed instance (the state `EOH.init`
produces from `demoOperator`, `demoPrep` and the parameters 1, 1,
"trotter", 1). -/
def demoEOH : EOH where
  _operator := demoOperator
  _initial_state := demoPrep
  _evo_operator := demoOperator
  _evo_time := 1
  _num_time_slices := 1
  _expansion_mode := "trotter"
  _expansion_order := 1
  _ret := []

/-! Helper lemmas shared by several claims. -/

/-- Validation succeeds exactly on the spec's valid-parameter region. -/
lemma validate_ok_iff (t n : Int) (m : String) (o : Int) :
    EOH._validate_eoh t n m o = .ok () ↔
      (0 ≤ t ∧ 0 ≤ n ∧ (m = "trotter" ∨ m = "suzuki") ∧ 1 ≤ o) := by
  unfold EOH._validate_eoh
  split_ifs with h1 h2 h3 h4 <;>
    simp_all [List.mem_cons, List.mem_singleton]

/-- The whole construction succeeds exactly when validation and both
conversions succeed. -/
lemma init_ok_iff (operator : BaseOperator) (initial_state : InitialState)
    (evo_operator : BaseOperator) (t n : Int) (m : String) (o : Int) :
    (∃ e, EOH.init operator initial_state evo_operator t n m o = .ok e) ↔
      (EOH._validate_eoh t n m o = .ok () ∧
       (∃ w, op_converter_to_weighted_pauli_operator operator = .ok w) ∧
       (∃ w, op_converter_to_weighted_pauli_operator evo_operator = .ok w)) := by
  unfold EOH.init
  rcases hv : EOH._validate_eoh t n m o with err | u
  · simp [hv]
  · rcases hc1 : op_converter_to_weighted_pauli_operator operator with err | w1
    · simp [hc1]
    · rcases hc2 : op_converter_to_weighted_pauli_operator evo_operator with err | w2
      · simp [hc2]
      · simp [hc1, hc2]

/-- C1: Construction raises a validation error if and only if
`evo_time < 0`, or `num_time_slices < 0`, or `expansion_mode` is not one
of "trotter"/"suzuki", or `expansion_order < 1`; for every combination
with `evo_time ≥ 0`, `num_time_slices ≥ 0` (including 0),
`expansion_mode` in the set and `expansion_order ≥ 1` (including 1),
validation passes and construction succeeds, assuming operator
canonicalization does not fail. -/
theorem C1_validation_iff (operator : BaseOperator) (initial_state : InitialState)
    (evo_operator : BaseOperator) (evo_time num_time_slices : Int)
    (expansion_mode : String) (expansion_order : Int) :
    (EOH._validate_eoh evo_time num_time_slices expansion_mode expansion_order = .ok ()
      ↔ (0 ≤ evo_time ∧ 0 ≤ num_time_slices ∧
         (expansion_mode = "trotter" ∨ expansion_mode = "suzuki") ∧
         1 ≤ expansion_order)) ∧
    ((∃ e, EOH.init operator initial_state evo_operator evo_time num_time_slices
        expansion_mode expansion_order = .ok e)
      ↔ (0 ≤ evo_time ∧ 0 ≤ num_time_slices ∧
         (expansion_mode = "trotter" ∨ expansion_mode = "suzuki") ∧
         1 ≤ expansion_order ∧
         (∃ w, op_converter_to_weighted_pauli_operator operator = .ok w) ∧
         (∃ w, op_converter_to_weighted_pauli_operator evo_operator = .ok w))) := by
  refine ⟨validate_ok_iff _ _ _ _, ?_⟩
  rw [init_ok_iff, validate_ok_iff]
  tauto

/-- C2: `construct_circuit` allocates a register sized to the observable
operator's qubit count, takes the preparer's fragment over that register
as the leading part, appends the evolution operator's time-evolution
fragment parameterized by exactly `evo_time`, `num_time_slices`,
`expansion_mode`, `expansion_order` over the same register, and returns
their concatenation; being a pure function of the instance state it is
deterministic and side-effect free, so two calls with no mutation in
between return equal circuits. -/
theorem C2_construct_circuit_concat (e : EOH) (p v : QuantumCircuit)
    (hp : e._initial_state.construct_circuit "circuit"
        ⟨e._operator.num_qubits, "q"⟩ = .ok p)
    (hv : e._evo_operator.evolve e._evo_time e._num_time_slices
        ⟨e._operator.num_qubits, "q"⟩ e._expansion_mode e._expansion_order = .ok v) :
    e.construct_circuit =
      (.ok (p ++ v),
       [.prepCall "circuit" ⟨e._operator.num_qubits, "q"⟩,
        .evolveCall e._evo_time e._num_time_slices ⟨e._operator.num_qubits, "q"⟩
          e._expansion_mode e._expansion_order]) ∧
    e.construct_circuit = e.construct_circuit := by
  refine ⟨?_, rfl⟩
  unfold EOH.construct_circuit
  simp only [hp, hv]

/-- Witness for C2 at the concrete demonstration instance. -/
theorem C2_construct_circuit_concat_witness :
    demoEOH.construct_circuit =
      (.ok ([1, 2] ++ [5]),
       [.prepCall "circuit" ⟨1, "q"⟩,
        .evolveCall 1 1 ⟨1, "q"⟩ "trotter" 1]) ∧
    demoEOH.construct_circuit = demoEOH.construct_circuit :=
  C2_construct_circuit_concat demoEOH [1, 2] [5] rfl rfl

/-- Circuit construction never calls the backend. -/
lemma cc_trace_no_execute (e : EOH) :
    ((e.construct_circuit).2).countP Event.isExecuteCall = 0 := by
  rcases hp : e._initial_state.construct_circuit "circuit"
      ⟨e._operator.num_qubits, "q"⟩ with err | qc
  · simp [EOH.construct_circuit, hp, Event.isExecuteCall]
  · rcases hv : e._evo_operator.evolve e._evo_time e._num_time_slices
        ⟨e._operator.num_qubits, "q"⟩ e._expansion_mode e._expansion_order
      with err | v <;>
      simp [EOH.construct_circuit, hp, hv, Event.isExecuteCall]

/-- C3: every successful `run` goes through the full pipeline — build the
circuit, wrap it with the observable operator's evaluation-circuit
construction, perform exactly one backend execution, reduce the raw result
with the observable operator's evaluation routine into the pair of avg and
std_dev — and stores and returns that pair; a failure at any stage yields
an error and never a partial result (the return type admits only a
complete pair or an error). -/
theorem C3_run_pipeline (e : EOH) (qi : QuantumInstance) (e' : EOH)
    (ret : List (String × Int))
    (h : (e._run qi).1 = .ok (e', ret)) :
    ∃ qc qcw result avg std_dev,
      (e.construct_circuit).1 = .ok qc ∧
      e._operator.construct_evaluation_circuit qc qi.is_statevector = .ok qcw ∧
      qi.execute qcw = .ok result ∧
      e._operator.evaluate_with_result result qi.is_statevector = .ok (avg, std_dev) ∧
      ret = dictSet (dictSet e._ret "avg" avg) "std_dev" std_dev ∧
      e'._ret = ret ∧
      (e._run qi).2 = (e.construct_circuit).2 ++
        [.evalCircuitCall qc qi.is_statevector, .executeCall qcw,
         .evaluateCall result qi.is_statevector] ∧
      ((e._run qi).2.countP Event.isExecuteCall = 1) := by
  have hns := cc_trace_no_execute e
  unfold EOH._run at h ⊢
  rcases hcc : e.construct_circuit with ⟨cc, trace0⟩
  rw [hcc] at h hns
  dsimp only at h hns ⊢
  cases cc with
  | error err => simp at h
  | ok qc =>
    dsimp only at h ⊢
    rcases hcec : e._operator.construct_evaluation_circuit qc qi.is_statevector
      with err | qcw
    · rw [hcec] at h; simp at h
    · rw [hcec] at h
      dsimp only at h ⊢
      rcases hex : qi.execute qcw with err | result
      · rw [hex] at h; simp at h
      · rw [hex] at h
        dsimp only at h ⊢
        rcases hev : e._operator.evaluate_with_result result qi.is_statevector
          with err | pr
        · rw [hev] at h; simp at h
        · rcases pr with ⟨avg, std_dev⟩
          rw [hev] at h
          dsimp only at h ⊢
          simp only [Except.ok.injEq, Prod.mk.injEq] at h
          refine ⟨qc, qcw, result, avg, std_dev, rfl, hcec, hex, hev, ?_, ?_, ?_, ?_⟩
          · exact h.2.symm
          · rw [← h.1]
            exact h.2
          · simp
          · simp [List.countP_append, List.countP_cons, Event.isExecuteCall, hns]

/-- Witness for C3: the concrete demonstration run succeeds with the
complete pipeline. -/
theorem C3_run_pipeline_witness :
    ∃ qc qcw result avg std_dev,
      (demoEOH.construct_circuit).1 = .ok qc ∧
      demoEOH._operator.construct_evaluation_circuit qc demoQI.is_statevector = .ok qcw ∧
      demoQI.execute qcw = .ok result ∧
      demoEOH._operator.evaluate_with_result result demoQI.is_statevector =
        .ok (avg, std_dev) ∧
      [("avg", (3 : Int)), ("std_dev", (2 : Int))] =
        dictSet (dictSet demoEOH._ret "avg" avg) "std_dev" std_dev ∧
      ({ demoEOH with _ret := [("avg", 3), ("std_dev", 2)] } : EOH)._ret =
        [("avg", (3 : Int)), ("std_dev", (2 : Int))] ∧
      (demoEOH._run demoQI).2 = (demoEOH.construct_circuit).2 ++
        [.evalCircuitCall qc demoQI.is_statevector, .executeCall qcw,
         .evaluateCall result demoQI.is_statevector] ∧
      ((demoEOH._run demoQI).2.countP Event.isExecuteCall = 1) :=
  C3_run_pipeline demoEOH demoQI
    { demoEOH with _ret := [("avg", 3), ("std_dev", 2)] }
    [("avg", 3), ("std_dev", 2)] rfl

/-- C4: every evaluation-circuit construction call and every
result-evaluation call performed by `run` carries the same mode flag, and
that flag is the backend's declared statevector mode; when the backend
declares statevector mode only the statevector variant is ever invoked,
and vice versa. -/
theorem C4_mode_flag_consistent (e : EOH) (qi : QuantumInstance) :
    (∀ qc b, Event.evalCircuitCall qc b ∈ (e._run qi).2 → b = qi.is_statevector) ∧
    (∀ r b, Event.evaluateCall r b ∈ (e._run qi).2 → b = qi.is_statevector) := by
  have hcc : ∀ ev, ev ∈ (e.construct_circuit).2 →
      (∀ qc b, ev ≠ Event.evalCircuitCall qc b) ∧
      (∀ r b, ev ≠ Event.evaluateCall r b) := by
    intro ev hev
    rcases hp : e._initial_state.construct_circuit "circuit"
        ⟨e._operator.num_qubits, "q"⟩ with err | qc
    · simp only [EOH.construct_circuit, hp, List.mem_singleton] at hev
      subst hev
      refine ⟨fun _ _ h => ?_, fun _ _ h => ?_⟩ <;> cases h
    · rcases hv : e._evo_operator.evolve e._evo_time e._num_time_slices
          ⟨e._operator.num_qubits, "q"⟩ e._expansion_mode e._expansion_order
        with err | v <;>
      · simp only [EOH.construct_circuit, hp, hv, List.mem_cons,
          List.not_mem_nil, or_false] at hev
        rcases hev with hev | hev <;>
          (subst hev; refine ⟨fun _ _ h => ?_, fun _ _ h => ?_⟩) <;> cases h
  unfold EOH._run
  rcases hc : e.construct_circuit with ⟨cc, trace0⟩
  rw [hc] at hcc
  dsimp only at hcc ⊢
  cases cc with
  | error err =>
    exact ⟨fun qc b hb => absurd rfl ((hcc _ hb).1 qc b),
           fun r b hb => absurd rfl ((hcc _ hb).2 r b)⟩
  | ok qc =>
    dsimp only
    rcases hcec : e._operator.construct_evaluation_circuit qc qi.is_statevector
      with err | qcw
    · dsimp only
      refine ⟨fun x b hb => ?_, fun r b hb => ?_⟩ <;>
      · rcases List.mem_append.mp hb with h0 | hL
        · first
          | exact absurd rfl ((hcc _ h0).1 x b)
          | exact absurd rfl ((hcc _ h0).2 r b)
        · simp only [List.mem_singleton] at hL
          cases hL <;> rfl
    · dsimp only
      rcases hex : qi.execute qcw with err | result
      · dsimp only
        refine ⟨fun x b hb => ?_, fun r b hb => ?_⟩ <;>
        · rcases List.mem_append.mp hb with hb | hL
          · rcases List.mem_append.mp hb with h0 | hL
            · first
              | exact absurd rfl ((hcc _ h0).1 x b)
              | exact absurd rfl ((hcc _ h0).2 r b)
            · simp only [List.mem_singleton] at hL
              cases hL <;> rfl
          · simp only [List.mem_singleton] at hL
            cases hL <;> rfl
      · dsimp only
        rcases hev : e._operator.evaluate_with_result result qi.is_statevector
          with err | pr
        · dsimp only
          refine ⟨fun x b hb => ?_, fun r b hb => ?_⟩ <;>
          · rcases List.mem_append.mp hb with hb | hL
            · rcases List.mem_append.mp hb with hb | hL
              · rcases List.mem_append.mp hb with h0 | hL
                · first
                  | exact absurd rfl ((hcc _ h0).1 x b)
                  | exact absurd rfl ((hcc _ h0).2 r b)
                · simp only [List.mem_singleton] at hL
                  cases hL <;> rfl
              · simp only [List.mem_singleton] at hL
                cases hL <;> rfl
            · simp only [List.mem_singleton] at hL
              cases hL <;> rfl
        · rcases pr with ⟨avg, std_dev⟩
          dsimp only
          refine ⟨fun x b hb => ?_, fun r b hb => ?_⟩ <;>
          · rcases List.mem_append.mp hb with hb | hL
            · rcases List.mem_append.mp hb with hb | hL
              · rcases List.mem_append.mp hb with h0 | hL
                · first
                  | exact absurd rfl ((hcc _ h0).1 x b)
                  | exact absurd rfl ((hcc _ h0).2 r b)
                · simp only [List.mem_singleton] at hL
                  cases hL <;> rfl
              · simp only [List.mem_singleton] at hL
                cases hL <;> rfl
            · simp only [List.mem_singleton] at hL
              cases hL <;> rfl

/-- Witness for C4 at the concrete demonstration run: the statevector
backend gets the statevector variant at both call sites. -/
theorem C4_mode_flag_consistent_witness :
    (Event.evalCircuitCall ([1, 2] ++ [5]) true ∈ (demoEOH._run demoQI).2 ∧
      true = demoQI.is_statevector) ∧
    (Event.evaluateCall [7] true ∈ (demoEOH._run demoQI).2 ∧
      true = demoQI.is_statevector) :=
  ⟨⟨by decide, (C4_mode_flag_consistent demoEOH demoQI).1 ([1, 2] ++ [5]) true
      (by decide)⟩,
   ⟨by decide, (C4_mode_flag_consistent demoEOH demoQI).2 [7] true (by decide)⟩⟩

/-- C5: the four checks run eagerly in the fixed order evo_time,
num_time_slices, expansion_mode, expansion_order; with several invalid
parameters the error raised is the first failing check's, each error
message names the offending field and carries the rejected value, and a
validation failure makes construction fail with that same error before
any instance state exists (no `EOH` value is produced). -/
theorem C5_validation_order_and_tags (evo_time num_time_slices : Int)
    (expansion_mode : String) (expansion_order : Int) :
    (evo_time < 0 →
      EOH._validate_eoh evo_time num_time_slices expansion_mode expansion_order =
        .error ("Evo time value " ++ toString evo_time ++
          ". Minimum value allowed is 0")) ∧
    (0 ≤ evo_time → num_time_slices < 0 →
      EOH._validate_eoh evo_time num_time_slices expansion_mode expansion_order =
        .error ("Num time slices value " ++ toString num_time_slices ++
          ". Minimum value allowed is 0")) ∧
    (0 ≤ evo_time → 0 ≤ num_time_slices →
      expansion_mode ≠ "trotter" → expansion_mode ≠ "suzuki" →
      EOH._validate_eoh evo_time num_time_slices expansion_mode expansion_order =
        .error ("Expansion Mode value \x27" ++ expansion_mode ++
          "\x27. Values allowed are \x27trotter\x27, \x27suzuki\x27")) ∧
    (0 ≤ evo_time → 0 ≤ num_time_slices →
      (expansion_mode = "trotter" ∨ expansion_mode = "suzuki") →
      expansion_order < 1 →
      EOH._validate_eoh evo_time num_time_slices expansion_mode expansion_order =
        .error ("Expansion order value " ++ toString expansion_order ++
          ". Minimum value allowed is 1")) ∧
    (∀ err (operator evo_operator : BaseOperator) (initial_state : InitialState),
      EOH._validate_eoh evo_time num_time_slices expansion_mode expansion_order =
        .error err →
      EOH.init operator initial_state evo_operator evo_time num_time_slices
        expansion_mode expansion_order = .error err) := by
  refine ⟨?_, ?_, ?_, ?_, ?_⟩
  · intro h1
    unfold EOH._validate_eoh
    simp [h1]
  · intro h1 h2
    unfold EOH._validate_eoh
    rw [if_neg (by omega), if_pos h2]
  · intro h1 h2 h3 h4
    unfold EOH._validate_eoh
    rw [if_neg (by omega), if_neg (by omega),
      if_pos (by simp [List.mem_cons, h3, h4])]
  · intro h1 h2 h3 h4
    unfold EOH._validate_eoh
    rw [if_neg (by omega), if_neg (by omega),
      if_neg (by simp [List.mem_cons]; tauto), if_pos h4]
  · intro err operator evo_operator initial_state hv
    unfold EOH.init
    rw [hv]

/-- Witness for C5: at evo_time -1 with every other parameter also
invalid, the error raised is the evo_time one, and construction fails with
it. -/
theorem C5_validation_order_and_tags_witness :
    EOH._validate_eoh (-1) (-1) "qdrift" 0 =
      .error ("Evo time value " ++ toString (-1 : Int) ++
        ". Minimum value allowed is 0") ∧
    EOH.init (.canonical demoOperator) demoPrep (.canonical demoOperator)
      (-1) (-1) "qdrift" 0 =
      .error ("Evo time value " ++ toString (-1 : Int) ++
        ". Minimum value allowed is 0") := by
  have h := C5_validation_order_and_tags (-1) (-1) "qdrift" 0
  have h1 := h.1 (by decide)
  exact ⟨h1, h.2.2.2.2 _ (.canonical demoOperator) (.canonical demoOperator)
    demoPrep h1⟩

/-- C6: on every successful construction the stored observable and
evolution operators are exactly the canonical conversions of the supplied
ones, performed during construction and hence before `construct_circuit`
or `run` (which only ever read the stored canonical fields) touches them;
and the conversion is idempotent — converting an operator already in
canonical form is a no-op that does not raise, so in particular
re-converting either stored operator returns it unchanged. -/
theorem C6_canonicalization (w : WeightedPauliOperator)
    (operator evo_operator : BaseOperator) (initial_state : InitialState)
    (t n : Int) (m : String) (o : Int) :
    (op_converter_to_weighted_pauli_operator (.canonical w) = .ok w) ∧
    (∀ e, EOH.init operator initial_state evo_operator t n m o = .ok e →
      op_converter_to_weighted_pauli_operator operator = .ok e._operator ∧
      op_converter_to_weighted_pauli_operator evo_operator = .ok e._evo_operator ∧
      op_converter_to_weighted_pauli_operator (.canonical e._operator) =
        .ok e._operator ∧
      op_converter_to_weighted_pauli_operator (.canonical e._evo_operator) =
        .ok e._evo_operator) := by
  refine ⟨rfl, ?_⟩
  intro e h
  unfold EOH.init at h
  rcases hv : EOH._validate_eoh t n m o with err | u
  · rw [hv] at h; cases h
  · rw [hv] at h
    rcases hc1 : op_converter_to_weighted_pauli_operator operator with err | w1
    · rw [hc1] at h; cases h
    · rw [hc1] at h
      rcases hc2 : op_converter_to_weighted_pauli_operator evo_operator with err | w2
      · rw [hc2] at h; cases h
      · rw [hc2] at h
        cases h
        exact ⟨rfl, rfl, rfl, rfl⟩

/-- Witness for C6 at a concrete construction. -/
theorem C6_canonicalization_witness :
    (op_converter_to_weighted_pauli_operator (.canonical demoOperator) =
      .ok demoOperator) ∧
    (op_converter_to_weighted_pauli_operator (.canonical demoOperator) =
      .ok demoEOH._operator ∧
     op_converter_to_weighted_pauli_operator (.canonical demoOperator) =
      .ok demoEOH._evo_operator ∧
     op_converter_to_weighted_pauli_operator (.canonical demoEOH._operator) =
      .ok demoEOH._operator ∧
     op_converter_to_weighted_pauli_operator (.canonical demoEOH._evo_operator) =
      .ok demoEOH._evo_operator) :=
  ⟨(C6_canonicalization demoOperator (.canonical demoOperator)
      (.canonical demoOperator) demoPrep 1 1 "trotter" 1).1,
   (C6_canonicalization demoOperator (.canonical demoOperator)
      (.canonical demoOperator) demoPrep 1 1 "trotter" 1).2 demoEOH rfl⟩

/-- A circuit-construction failure is returned by `run` unchanged. -/
lemma run_error_of_cc_error (e : EOH) (qi : QuantumInstance) (err : Err)
    (h : (e.construct_circuit).1 = .error err) : (e._run qi).1 = .error err := by
  unfold EOH._run
  rcases hc : e.construct_circuit with ⟨cc, t0⟩
  rw [hc] at h
  dsimp only at h ⊢
  subst h
  rfl

/-- After a successful circuit construction, `run`'s outcome is decided by
the remaining three collaborator calls, each error passed through. -/
lemma run_of_cc_ok (e : EOH) (qi : QuantumInstance) (qc : QuantumCircuit)
    (t0 : List Event) (h : e.construct_circuit = (.ok qc, t0)) :
    (e._run qi).1 =
      (match e._operator.construct_evaluation_circuit qc qi.is_statevector with
       | .error err => .error err
       | .ok qcw =>
         match qi.execute qcw with
         | .error err => .error err
         | .ok result =>
           match e._operator.evaluate_with_result result qi.is_statevector with
           | .error err => .error err
           | .ok (avg, std_dev) =>
             .ok ({ e with _ret := dictSet (dictSet e._ret "avg" avg) "std_dev" std_dev },
                  dictSet (dictSet e._ret "avg" avg) "std_dev" std_dev)) := by
  unfold EOH._run
  rw [h]
  dsimp only
  rcases e._operator.construct_evaluation_circuit qc qi.is_statevector with err | qcw
  · rfl
  · dsimp only
    rcases qi.execute qcw with err | result
    · rfl
    · dsimp only
      rcases e._operator.evaluate_with_result result qi.is_statevector with err | pr
      · rfl
      · rcases pr with ⟨avg, std_dev⟩
        rfl

/-- C7: any failure raised by the preparer, the evolution routine, the
evaluation-circuit construction, the backend execution, or the result
evaluation propagates out of `construct_circuit`/`run` unchanged — same
error value, no wrapping, no translation — and the backend is never
retried (at most one execution call ever happens). -/
theorem C7_failures_propagate (e : EOH) (qi : QuantumInstance) (err : Err) :
    (e._initial_state.construct_circuit "circuit"
        ⟨e._operator.num_qubits, "q"⟩ = .error err →
      (e.construct_circuit).1 = .error err ∧ (e._run qi).1 = .error err) ∧
    (∀ p, e._initial_state.construct_circuit "circuit"
        ⟨e._operator.num_qubits, "q"⟩ = .ok p →
      e._evo_operator.evolve e._evo_time e._num_time_slices
        ⟨e._operator.num_qubits, "q"⟩ e._expansion_mode e._expansion_order =
        .error err →
      (e.construct_circuit).1 = .error err ∧ (e._run qi).1 = .error err) ∧
    (∀ qc, (e.construct_circuit).1 = .ok qc →
      e._operator.construct_evaluation_circuit qc qi.is_statevector = .error err →
      (e._run qi).1 = .error err) ∧
    (∀ qc qcw, (e.construct_circuit).1 = .ok qc →
      e._operator.construct_evaluation_circuit qc qi.is_statevector = .ok qcw →
      qi.execute qcw = .error err →
      (e._run qi).1 = .error err) ∧
    (∀ qc qcw result, (e.construct_circuit).1 = .ok qc →
      e._operator.construct_evaluation_circuit qc qi.is_statevector = .ok qcw →
      qi.execute qcw = .ok result →
      e._operator.evaluate_with_result result qi.is_statevector = .error err →
      (e._run qi).1 = .error err) ∧
    ((e._run qi).2.countP Event.isExecuteCall ≤ 1) := by
  have hns := cc_trace_no_execute e
  refine ⟨?_, ?_, ?_, ?_, ?_, ?_⟩
  · intro hp
    have h1 : (e.construct_circuit).1 = .error err := by
      simp [EOH.construct_circuit, hp]
    exact ⟨h1, run_error_of_cc_error e qi err h1⟩
  · intro p hp hv
    have h1 : (e.construct_circuit).1 = .error err := by
      simp [EOH.construct_circuit, hp, hv]
    exact ⟨h1, run_error_of_cc_error e qi err h1⟩
  · intro qc h1 hcec
    have hpair : e.construct_circuit = (.ok qc, (e.construct_circuit).2) := by
      rw [← h1]
    rw [run_of_cc_ok e qi qc _ hpair, hcec]
  · intro qc qcw h1 hcec hex
    have hpair : e.construct_circuit = (.ok qc, (e.construct_circuit).2) := by
      rw [← h1]
    rw [run_of_cc_ok e qi qc _ hpair, hcec]
    dsimp only
    rw [hex]
  · intro qc qcw result h1 hcec hex hev
    have hpair : e.construct_circuit = (.ok qc, (e.construct_circuit).2) := by
      rw [← h1]
    rw [run_of_cc_ok e qi qc _ hpair, hcec]
    dsimp only
    rw [hex]
    dsimp only
    rw [hev]
  · unfold EOH._run
    rcases hc : e.construct_circuit with ⟨cc, t0⟩
    rw [hc] at hns
    dsimp only at hns ⊢
    cases cc with
    | error err2 => simp [hns]
    | ok qc =>
      dsimp only
      rcases e._operator.construct_evaluation_circuit qc qi.is_statevector
        with err2 | qcw
      · simp [List.countP_append, List.countP_cons, Event.isExecuteCall, hns]
      · dsimp only
        rcases qi.execute qcw with err2 | result
        · simp [List.countP_append, List.countP_cons, Event.isExecuteCall, hns]
        · dsimp only
          rcases e._operator.evaluate_with_result result qi.is_statevector
            with err2 | pr
          · simp [List.countP_append, List.countP_cons, Event.isExecuteCall, hns]
          · rcases pr with ⟨avg, std_dev⟩
            simp [List.countP_append, List.countP_cons, Event.isExecuteCall, hns]

/-- Witness for C7: a preparer failure comes out of `construct_circuit`
and `run` verbatim on a concrete instance. -/
theorem C7_failures_propagate_witness :
    (({ demoEOH with _initial_state := badPrep } : EOH).construct_circuit).1 =
      .error "boom" ∧
    (({ demoEOH with _initial_state := badPrep } : EOH)._run demoQI).1 =
      .error "boom" :=
  (C7_failures_propagate { demoEOH with _initial_state := badPrep }
    demoQI "boom").1 rfl

/-- Writing avg then std_dev into a dict that is empty or holds exactly a
previous avg/std_dev pair yields exactly the new pair. -/
lemma dictSet_avg_std (r : List (String × Int)) (a s : Int)
    (h : r = [] ∨ ∃ a0 s0, r = [("avg", a0), ("std_dev", s0)]) :
    dictSet (dictSet r "avg" a) "std_dev" s = [("avg", a), ("std_dev", s)] := by
  rcases h with h | ⟨a0, s0, h⟩ <;> subst h <;> simp [dictSet]

/-- C8: each successful `run` produces a result summary holding exactly
the avg and std_dev of that run — a prior summary (the dict starts empty
at construction and holds exactly an avg/std_dev pair after any earlier
run) is overwritten, not merged or accumulated — and the summary stored on
the instance equals the returned one. -/
theorem C8_result_summary_overwritten (e : EOH) (qi : QuantumInstance) (e' : EOH)
    (ret : List (String × Int))
    (hprior : e._ret = [] ∨ ∃ a0 s0, e._ret = [("avg", a0), ("std_dev", s0)])
    (h : (e._run qi).1 = .ok (e', ret)) :
    ∃ avg std_dev result,
      e._operator.evaluate_with_result result qi.is_statevector = .ok (avg, std_dev) ∧
      ret = [("avg", avg), ("std_dev", std_dev)] ∧
      e'._ret = ret := by
  rcases hc : e.construct_circuit with ⟨cc, t0⟩
  cases cc with
  | error err =>
    have herr := run_error_of_cc_error e qi err (by rw [hc])
    rw [herr] at h
    cases h
  | ok qc =>
    have hrun := run_of_cc_ok e qi qc t0 hc
    rw [hrun] at h
    rcases hcec : e._operator.construct_evaluation_circuit qc qi.is_statevector
      with err | qcw
    · rw [hcec] at h; simp at h
    · rw [hcec] at h
      dsimp only at h
      rcases hex : qi.execute qcw with err | result
      · rw [hex] at h; simp at h
      · rw [hex] at h
        dsimp only at h
        rcases hev : e._operator.evaluate_with_result result qi.is_statevector
          with err | pr
        · rw [hev] at h; simp at h
        · rcases pr with ⟨avg, std_dev⟩
          rw [hev] at h
          simp only [Except.ok.injEq, Prod.mk.injEq] at h
          refine ⟨avg, std_dev, result, hev, ?_, ?_⟩
          · rw [← h.2]
            exact dictSet_avg_std e._ret avg std_dev hprior
          · rw [← h.1, ← h.2]

/-- Witness for C8: running the demonstration instance with a stale
summary already stored yields exactly the new pair, stored and
returned. -/
theorem C8_result_summary_overwritten_witness :
    ∃ avg std_dev result,
      ({ demoEOH with
          _ret := [("avg", (100 : Int)), ("std_dev", (200 : Int))] } : EOH)._operator.evaluate_with_result
          result demoQI.is_statevector = .ok (avg, std_dev) ∧
      [("avg", (3 : Int)), ("std_dev", (2 : Int))] =
        [("avg", avg), ("std_dev", std_dev)] ∧
      ({ demoEOH with
          _ret := [("avg", (3 : Int)), ("std_dev", (2 : Int))] } : EOH)._ret =
        [("avg", (3 : Int)), ("std_dev", (2 : Int))] :=
  C8_result_summary_overwritten
    { demoEOH with _ret := [("avg", 100), ("std_dev", 200)] } demoQI
    { demoEOH with _ret := [("avg", 3), ("std_dev", 2)] }
    [("avg", 3), ("std_dev", 2)]
    (Or.inr ⟨100, 200, rfl⟩) rfl

/-- Whether an `Except` computation succeeded. -/
def exceptOk {α : Type _} : Except Err α → Bool
  | .ok _ => true
  | .error _ => false

/-- C9: neither construction nor `construct_circuit` compares the
observable operator's qubit count with the evolution operator's: the
circuit (and its trace) is unchanged under any change of the evolution
operator's reported qubit count, the register is sized from the observable
operator's count alone, and construction of two canonical operators
succeeds exactly when the scalar validation passes — whatever the two
qubit counts are. -/
theorem C9_no_qubit_count_crosscheck (e : EOH) (n : Nat)
    (w1 w2 : WeightedPauliOperator) (prep : InitialState)
    (t ns : Int) (m : String) (o : Int) :
    (EOH.construct_circuit
        { e with _evo_operator := { e._evo_operator with num_qubits := n } } =
      EOH.construct_circuit e) ∧
    ((e.construct_circuit).2.head? =
      some (.prepCall "circuit" ⟨e._operator.num_qubits, "q"⟩)) ∧
    (exceptOk (EOH.init (.canonical w1) prep (.canonical w2) t ns m o) =
      exceptOk (EOH._validate_eoh t ns m o)) := by
  refine ⟨rfl, ?_, ?_⟩
  · rcases hp : e._initial_state.construct_circuit "circuit"
        ⟨e._operator.num_qubits, "q"⟩ with err | qc
    · simp [EOH.construct_circuit, hp]
    · rcases hv : e._evo_operator.evolve e._evo_time e._num_time_slices
          ⟨e._operator.num_qubits, "q"⟩ e._expansion_mode e._expansion_order
        with err | v <;>
        simp [EOH.construct_circuit, hp, hv]
  · rcases hv : EOH._validate_eoh t ns m o with err | u <;>
      simp [EOH.init, hv, op_converter_to_weighted_pauli_operator, exceptOk]

/-- C10: construction never inspects or invokes the initial-state
preparer (and takes no backend at all): its success is unchanged under
swapping in any other preparer, the preparer is stored untouched, and a
defective preparer's failure surfaces only when `construct_circuit` first
invokes it. -/
theorem C10_no_collaborator_validation (operator evo_operator : BaseOperator)
    (prep prep2 : InitialState) (t n : Int) (m : String) (o : Int) :
    (exceptOk (EOH.init operator prep evo_operator t n m o) =
      exceptOk (EOH.init operator prep2 evo_operator t n m o)) ∧
    (∀ e, EOH.init operator prep evo_operator t n m o = .ok e →
      e._initial_state = prep) ∧
    (∀ e err, EOH.init operator prep evo_operator t n m o = .ok e →
      prep.construct_circuit "circuit" ⟨e._operator.num_qubits, "q"⟩ = .error err →
      (e.construct_circuit).1 = .error err) := by
  have hstore : ∀ e, EOH.init operator prep evo_operator t n m o = .ok e →
      e._initial_state = prep := by
    intro e h
    unfold EOH.init at h
    rcases hv : EOH._validate_eoh t n m o with err | u
    · rw [hv] at h; cases h
    · rw [hv] at h
      rcases hc1 : op_converter_to_weighted_pauli_operator operator with err | w1
      · rw [hc1] at h; cases h
      · rw [hc1] at h
        rcases hc2 : op_converter_to_weighted_pauli_operator evo_operator
          with err | w2
        · rw [hc2] at h; cases h
        · rw [hc2] at h
          cases h
          rfl
  refine ⟨?_, hstore, ?_⟩
  · unfold EOH.init
    rcases hv : EOH._validate_eoh t n m o with err | u
    · rfl
    · rcases hc1 : op_converter_to_weighted_pauli_operator operator with err | w1
      · rfl
      · rcases hc2 : op_converter_to_weighted_pauli_operator evo_operator
          with err | w2 <;> rfl
  · intro e err h hp
    have hs := hstore e h
    rw [← hs] at hp
    simp [EOH.construct_circuit, hp]

/-- Witness for C10: construction succeeds with the always-failing
preparer stored untouched, and its failure surfaces at
`construct_circuit`. -/
theorem C10_no_collaborator_validation_witness :
    ({ demoEOH with _initial_state := badPrep } : EOH)._initial_state = badPrep ∧
    ((({ demoEOH with _initial_state := badPrep } : EOH)).construct_circuit).1 =
      .error "boom" :=
  ⟨(C10_no_collaborator_validation (.canonical demoOperator)
      (.canonical demoOperator) badPrep demoPrep 1 1 "trotter" 1).2.1
      { demoEOH with _initial_state := badPrep } rfl,
   (C10_no_collaborator_validation (.canonical demoOperator)
      (.canonical demoOperator) badPrep demoPrep 1 1 "trotter" 1).2.2
      { demoEOH with _initial_state := badPrep } "boom" rfl rfl⟩

end EOHSpec
